import Mathlib

/-!
Verification of `fetch_product_units.py`, a batch tool that reads product
numbers from a CSV file, fetches unit-of-measure records for each product
from a REST API, and writes a semicolon-delimited CSV.

The Python source is shallowly embedded:
* JSON values become the inductive `Json` (numbers are modelled as integers;
  none of the verified properties involve fractional payloads).
* The `csv` module's behaviour on unquoted input is modelled by splitting
  lines on the single-character delimiter; quoting does not occur in any
  input considered here.  The delimiter produced by `csv.Sniffer` is a
  parameter of the reader.
* `csv.DictReader` row access `row.get(field)` is modelled by `dictZipGet`,
  reproducing `dict(zip(fieldnames, row))` with `restval = None` for short
  rows (last assignment wins for duplicate field names).
* The reader returns `Except String (List String)`: the `ValueError` raised
  when the chosen column name is falsy becomes `.error` with its message,
  caught by the driver's outer exception handler.
* The network is a function from product number to `HttpResponse`; the
  driver `main_run` returns the written file contents (if any), the
  collected error strings, the stderr diagnostics and the exit code.
-/

/-- JSON values as produced by `json.loads`. -/
inductive Json where
  | null
  | bool (b : Bool)
  | num (n : Int)
  | str (s : String)
  | arr (elems : List Json)
  | obj (fields : List (String × Json))

/-- `d.get(k)` on a Python dict represented as an association list; a later
binding for the same key overwrites an earlier one, as in dict construction. -/
def objGet (kvs : List (String × Json)) (k : String) : Option Json :=
  kvs.foldl (fun acc kv => if kv.1 = k then some kv.2 else acc) none

/-- `isinstance(item, dict)`. -/
def Json.isDict : Json → Bool
  | .obj _ => true
  | _ => false

/-- Whether an optional JSON value is present and a list
(`isinstance(value, list)` after `payload.get(key)`). -/
def isSomeList : Option Json → Bool
  | some (.arr _) => true
  | _ => false

/-- The wrapper keys tried, in order, by `parse_units_payload` (source line 134). -/
def wrapperKeys : List String := ["item_units", "data", "units", "results", "items"]

/-- The `for key in (...)` loop of `parse_units_payload`: return the filtered
list held by the first key whose value is a list. -/
def tryWrapperKeys (kvs : List (String × Json)) : List String → List Json
  | [] => []
  | k :: rest =>
    match objGet kvs k with
    | some (.arr v) => v.filter Json.isDict
    | _ => tryWrapperKeys kvs rest

/-- `parse_units_payload` (source lines 129-139): a bare list is filtered to
its dict elements; an object is probed for the wrapper keys; anything else
yields the empty list. -/
def parse_units_payload : Json → List Json
  | .arr elems => elems.filter Json.isDict
  | .obj kvs => tryWrapperKeys kvs wrapperKeys
  | _ => []

/-- A JSON value of "any other shape" in the sense of the spec: not a bare
list, and if an object, none of the wrapper keys holds a list. -/
def noListWrapper : Json → Bool
  | .arr _ => false
  | .obj kvs => wrapperKeys.all (fun k => !isSomeList (objGet kvs k))
  | _ => true

/-- Characters removed by Python `str.strip()` (ASCII whitespace; the inputs
considered contain no further Unicode space). -/
def isPySpace (c : Char) : Bool :=
  c = ' ' || c = '\t' || c = '\n' || c = '\r' || c = '\x0b' || c = '\x0c'

/-- `str.strip()` on a character list. -/
def pyStripList (cs : List Char) : List Char :=
  ((cs.dropWhile isPySpace).reverse.dropWhile isPySpace).reverse

/-- Python `str.strip()`. -/
def pyStrip (s : String) : String :=
  String.mk (pyStripList s.toList)

/-- `str.strip(chars)` on a character list: remove leading and trailing
characters drawn from `bad`. -/
def stripCharsList (bad : List Char) (cs : List Char) : List Char :=
  ((cs.dropWhile (bad.contains ·)).reverse.dropWhile (bad.contains ·)).reverse

/-- Python `str.strip(";,")` specialised to a character set. -/
def stripChars (bad : List Char) (s : String) : String :=
  String.mk (stripCharsList bad s.toList)

/-- Python `str.lower()` (ASCII; the candidate column names are ASCII). -/
def lowerStr (s : String) : String :=
  String.mk (s.toList.map Char.toLower)

/-- Whether `p` is an initial segment of `s` (Python `str.startswith`). -/
def listStarts : List Char → List Char → Bool
  | [], _ => true
  | _, [] => false
  | a :: ps, b :: ss => a = b && listStarts ps ss

/-- `value.lower().startswith("product")` (source line 119). -/
def looksLikeHeader (v : String) : Bool :=
  listStarts "product".toList (lowerStr v).toList

/-- Split a character list on a delimiter character. -/
def splitOnCharList (c : Char) : List Char → List (List Char)
  | [] => [[]]
  | x :: xs =>
    let r := splitOnCharList c xs
    if x = c then [] :: r
    else
      match r with
      | [] => [[x]]
      | h :: t => (x :: h) :: t

/-- One line parsed by the `csv` module with a single-character delimiter and
no quoting: a blank line yields the empty row `[]`, otherwise the fields are
the delimiter-separated pieces. -/
def csvSplit (delim : Char) (line : String) : List String :=
  if line = "" then [] else (splitOnCharList delim line.toList).map String.mk

/-- The prioritized candidate column names of `get_product_number_field`
(source lines 72-82). -/
def candidates : List String :=
  ["product_number", "productnumber", "product no", "product_no",
   "product nr", "productnr", "itemnumber", "sku", "varenummer"]

/-- `name.strip().lower()`, the normalisation applied to header names. -/
def normKey (s : String) : String :=
  String.mk ((pyStripList s.toList).map Char.toLower)

/-- `normalized[candidate]` where `normalized = {name.strip().lower(): name
for name in fieldnames}`: the last field name whose normalisation equals
`cand`, if any. -/
def normLookup (fieldnames : List String) (cand : String) : Option String :=
  fieldnames.foldl (fun acc name => if normKey name = cand then some name else acc) none

/-- The `for candidate in candidates` loop: first candidate present in the
normalised header map. -/
def findCandidate (fieldnames : List String) : List String → Option String
  | [] => none
  | c :: cs =>
    match normLookup fieldnames c with
    | some n => some n
    | none => findCandidate fieldnames cs

/-- `get_product_number_field` (source lines 67-87): `none` for a missing or
empty header, otherwise the first matching candidate's original name, else
the first column. -/
def get_product_number_field (fieldnames : List String) : Option String :=
  match fieldnames with
  | [] => none
  | f0 :: _ =>
    match findCandidate fieldnames candidates with
    | some n => some n
    | none => some f0

/-- `dict(zip(fieldnames, row)).get(field)` with `restval = None` for the
missing tail, as built by `csv.DictReader.__next__`: the value paired with
the last occurrence of `field` among the field names, `none` when that
occurrence lies beyond the row's length or the field is absent. -/
def dictZipGet (fieldnames row : List String) (field : String) : Option String :=
  (fieldnames.zip (row.map some ++ List.replicate fieldnames.length none)).foldl
    (fun acc kv => if kv.1 = field then kv.2 else acc) none

/-- The value-collection loop of the structured branch (source lines
106-110) for an already chosen column `field`: the non-empty stripped
values of that column, in row order.  `csv.DictReader` skips blank rows
(`row == []`). -/
def columnValues (delim : Char) (fieldnames : List String) (field : String)
    (rest : List String) : List String :=
  ((rest.map (csvSplit delim)).filter (fun r => r ≠ [])).filterMap (fun row =>
    let v := pyStrip ((dictZipGet fieldnames row field).getD "")
    if v = "" then none else some v)

/-- The bare-line fallback of `read_product_numbers` (source lines 115-121):
`value = line.strip().strip(";,")`, kept when non-empty and not
header-looking. -/
def bareLineValues (lines : List String) : List String :=
  lines.filterMap (fun line =>
    let v := stripChars [';', ','] (pyStrip line)
    if v ≠ "" && !looksLikeHeader v then some v else none)

/-- `read_product_numbers` (source lines 90-121) on the file's lines, with
the sniffed delimiter as a parameter.  The `none` arm of the column choice
occurs exactly when the header row is absent or blank
(`if reader.fieldnames:` is falsy): the structured branch is skipped and
the bare-line fallback runs.  With a header present, the source checks
`if not field: raise ValueError(...)` (lines 103-104); since
`get_product_number_field` then always returns a string, `not field` is
true exactly for the empty string (no candidate matched and the first
header field is empty), and the raise is modelled by `.error` with the
`ValueError` message.  Otherwise the structured values are returned when
any exist, else the bare-line fallback. -/
def read_product_numbers (delim : Char) (lines : List String) :
    Except String (List String) :=
  match lines with
  | [] => .ok (bareLineValues [])
  | header :: rest =>
    let fieldnames := csvSplit delim header
    match get_product_number_field fieldnames with
    | none => .ok (bareLineValues (header :: rest))
    | some field =>
      if field = "" then
        .error "Unable to determine product number column in input CSV."
      else
        let values := columnValues delim fieldnames field rest
        if values = [] then .ok (bareLineValues (header :: rest)) else .ok values

/-- The condition under which the source reaches the bare-line fallback:
either there is no usable header row, or a column with a non-empty name is
chosen (so the `ValueError` at lines 103-104 is not raised) and every value
of that column is empty. -/
def structuredYieldsNothing (delim : Char) (lines : List String) : Bool :=
  match lines with
  | [] => true
  | header :: rest =>
    match get_product_number_field (csvSplit delim header) with
    | none => true
    | some field =>
      decide (field ≠ "") &&
        decide (columnValues delim (csvSplit delim header) field rest = [])

/-- Modelled from the spec wording of the reader property: "the non-empty,
whitespace-trimmed values of that column, in row order", where a row's value
in the column named `field` is what `csv.DictReader` yields for it. -/
def columnValuesSpec (delim : Char) (field : String) (fieldnames : List String)
    (rest : List String) : List String :=
  rest.filterMap (fun line =>
    let v := pyStrip ((dictZipGet fieldnames (csvSplit delim line) field).getD "")
    if v = "" then none else some v)

/-- Modelled from the spec wording of the fallback property: for each line in
file order, the value after whitespace trimming and delimiter-character
stripping, kept when non-empty and not header-looking. -/
def bareLineSpec (lines : List String) : List String :=
  lines.filterMap (fun line =>
    let v := stripChars [';', ','] (pyStrip line)
    if v ≠ "" && !looksLikeHeader v then some v else none)

/-- One output record, with the four keys set by `to_output_rows`
(source lines 172-177).  `product_number` is stored as a JSON string; the
other fields keep the JSON value returned by `unit_item.get(key, "")`. -/
structure OutputRow where
  product_number : Json
  unit : Json
  unitname : Json
  quantity : Json

/-- The Python `csv` writer's rendering of a cell value: `None` is written
as the empty string (the csv module special-cases it), other atoms via
`str()`.  Container values are given placeholder renderings: no verified
property serialises a list or object cell, and the Python `str` of
containers is out of scope. -/
def pyStr : Json → String
  | .null => ""
  | .bool b => if b then "True" else "False"
  | .num n => toString n
  | .str s => s
  | .arr _ => "<list>"
  | .obj _ => "<dict>"

/-- `unit_item.get(key, "")` where `unit_item` is a dict.  Every caller passes
a dict (guaranteed by the `isinstance(item, dict)` filter of
`parse_units_payload`); the non-dict arm is unreachable from the driver. -/
def jsonGetD (u : Json) (k : String) : Json :=
  match u with
  | .obj kvs => (objGet kvs k).getD (.str "")
  | _ => .str ""

/-- The row dict built for one unit record (source lines 172-177). -/
def rowOf (product_number : String) (unit_item : Json) : OutputRow :=
  { product_number := .str product_number,
    unit := jsonGetD unit_item "unit",
    unitname := jsonGetD unit_item "name",
    quantity := jsonGetD unit_item "quantity" }

/-- `to_output_rows` (source lines 169-179). -/
def to_output_rows (product_number : String) (units : List Json) : List OutputRow :=
  units.map (rowOf product_number)

/-- `csv` QUOTE_MINIMAL quoting for delimiter `;`: a field containing the
delimiter, a double quote or a line break is wrapped in double quotes with
inner quotes doubled. -/
def csvQuote (s : String) : String :=
  if s.toList.any (fun c => c = ';' || c = '"' || c = '\n' || c = '\r') then
    "\"" ++ String.mk (s.toList.foldr
      (fun c acc => if c = '"' then '"' :: '"' :: acc else c :: acc) []) ++ "\""
  else s

/-- Join fields with the `;` delimiter. -/
def joinSemi : List String → String
  | [] => ""
  | [x] => x
  | x :: xs => x ++ ";" ++ joinSemi xs

/-- One physical CSV line for a list of cell values. -/
def csvJoin (fields : List String) : String :=
  joinSemi (fields.map csvQuote)

/-- The fixed `fieldnames` passed to `csv.DictWriter` (source line 187). -/
def output_fieldnames : List String :=
  ["product_number", "unit", "unitname", "quantity"]

/-- The header line written by `writer.writeheader()`. -/
def headerLine : String := csvJoin output_fieldnames

/-- The line written for one row dict: the four values in `fieldnames`
order, each passed through `str()` and minimal quoting. -/
def rowLine (r : OutputRow) : String :=
  csvJoin [pyStr r.product_number, pyStr r.unit, pyStr r.unitname, pyStr r.quantity]

/-- `write_output_csv` (source lines 182-191) as the list of lines of the
written file: the header followed by one line per row, in order.  The
`mkdir(parents=True, exist_ok=True)` call and the file handle are I/O and
are modelled by the write succeeding unconditionally. -/
def write_output_csv (rows : List OutputRow) : List String :=
  headerLine :: rows.map rowLine

/-- `build_units_url` (source lines 124-126); `urlencode` turns the fixed
field list `unit,name,quantity` into `fields=unit%2Cname%2Cquantity`. -/
def build_units_url (product_number : String) : String :=
  "https://app.rackbeat.com/api/products/" ++ product_number
    ++ "/units?fields=unit%2Cname%2Cquantity"

/-- Outcome of one HTTP GET, abstracting `urlopen`: a 2xx response whose body
parsed as JSON, a non-2xx status (`HTTPError`) with its code and body, a
transport failure (`URLError`) with its reason, or a body that failed JSON
decoding with the decoder's message. -/
inductive HttpResponse where
  | success (body : Json)
  | httpError (code : Nat) (detail : String)
  | netError (reason : String)
  | badJson (msg : String)

/-- `fetch_units_for_product` (source lines 142-166): on success the parsed
unit list, otherwise the `RuntimeError` message built for the failure. -/
def fetch_units_for_product (product_number : String) (resp : HttpResponse) :
    Except String (List Json) :=
  match resp with
  | .success body => .ok (parse_units_payload body)
  | .httpError code detail =>
    .error ("HTTP " ++ toString code ++ " for product '" ++ product_number
      ++ "' at " ++ build_units_url product_number ++ ". Response: " ++ detail)
  | .netError reason =>
    .error ("Network error for product '" ++ product_number ++ "': " ++ reason)
  | .badJson msg =>
    .error ("Invalid JSON for product '" ++ product_number ++ "': " ++ msg)

/-- What `main` observably produces (source lines 210-237): the written
output file's lines (`none` when no write happened), the collected
per-product error strings, the stderr diagnostics, and the exit code.  The
stdout summary lines are not modelled. -/
structure MainOutcome where
  outputFile : Option (List String)
  errors : List String
  diagnostics : List String
  exitCode : Nat
deriving DecidableEq

/-- One iteration of `main`'s per-product loop (source lines 218-223):
extend the row accumulator on success, append the error string on failure. -/
def stepProduct (network : String → HttpResponse) (acc : List OutputRow × List String)
    (pn : String) : List OutputRow × List String :=
  match fetch_units_for_product pn (network pn) with
  | .ok units => (acc.1 ++ to_output_rows pn units, acc.2)
  | .error e => (acc.1, acc.2 ++ [e])

/-- The per-product loop of `main` over the whole product list. -/
def processProducts (network : String → HttpResponse) (product_numbers : List String) :
    List OutputRow × List String :=
  product_numbers.foldl (stepProduct network) ([], [])

/-- Rows contributed by one product in `main`'s loop. -/
def rowsOf (network : String → HttpResponse) (pn : String) : List OutputRow :=
  match fetch_units_for_product pn (network pn) with
  | .ok units => to_output_rows pn units
  | .error _ => []

/-- The error recorded for one product in `main`'s loop, if any. -/
def errOf (network : String → HttpResponse) (pn : String) : Option String :=
  match fetch_units_for_product pn (network pn) with
  | .ok _ => none
  | .error e => some e

/-- `main` from the point the product numbers are read (source lines
210-237), over the input file's lines, the sniffed delimiter and the
network.  A `ValueError` raised by the reader propagates to the outer
`except Exception` handler (lines 238-240): `Error: {exc}` on stderr, exit
1, no file written.  Otherwise: exit 1 with a diagnostic and no write when
no product numbers are found; else fetch each product, write the file, and
exit 0 on no errors or 2 with the error diagnostics. -/
def main_run (network : String → HttpResponse) (delim : Char) (lines : List String) :
    MainOutcome :=
  match read_product_numbers delim lines with
  | .error msg =>
    { outputFile := none, errors := [],
      diagnostics := ["Error: " ++ msg], exitCode := 1 }
  | .ok product_numbers =>
    if product_numbers = [] then
      { outputFile := none, errors := [],
        diagnostics := ["No product numbers found in input CSV."], exitCode := 1 }
    else
      let res := processProducts network product_numbers
      let file := write_output_csv res.1
      if res.2 = [] then
        { outputFile := some file, errors := [], diagnostics := [], exitCode := 0 }
      else
        { outputFile := some file, errors := res.2,
          diagnostics := ("Errors: " ++ toString res.2.length) :: res.2.map (fun e => "- " ++ e),
          exitCode := 2 }

/-- A `pathlib.Path`: an absolute flag and the component list.  The relative
path `.` is `⟨false, []⟩`, the root `/` is `⟨true, []⟩`. -/
structure PyPath where
  absolute : Bool
  parts : List String
deriving DecidableEq

/-- `Path.parent`: drop the last component; the parent of `.` and of `/` is
itself, as in `pathlib`. -/
def PyPath.parent (p : PyPath) : PyPath :=
  { p with parts := p.parts.dropLast }

/-- `p / q` for a relative `q`, as used by `main`. -/
def PyPath.join (p q : PyPath) : PyPath :=
  { absolute := p.absolute, parts := p.parts ++ q.parts }

/-- The output-path resolution of `main` (source lines 200-208): an absolute
`--output` is used as given, a relative one is joined onto the input's
parent, and an absent one defaults to `product_units.csv` next to the
input.  An empty `--output` string is falsy in Python and behaves as
absent. -/
def resolve_output_path (input_path : PyPath) (output_arg : Option PyPath) : PyPath :=
  match output_arg with
  | some candidate =>
    if candidate.absolute then candidate else input_path.parent.join candidate
  | none => input_path.parent.join ⟨false, ["product_units.csv"]⟩

/-- First unit record of the C2 scenario: A1's first unit of measure. -/
def unitPcs : Json :=
  .obj [("unit", .str "pcs"), ("name", .str "Pieces"), ("quantity", .num 1)]

/-- Second unit record of the C2 scenario. -/
def unitBox : Json :=
  .obj [("unit", .str "box"), ("name", .str "Box"), ("quantity", .num 10)]

/-- The C2 network: product A1 answers with two unit records, every other
product (in particular A2) fails with HTTP 404. -/
def netC2 : String → HttpResponse := fun pn =>
  if pn = "A1" then .success (.arr [unitPcs, unitBox])
  else .httpError 404 "Not found"

/-- The error string `fetch_units_for_product` raises for A2 under `netC2`. -/
def errA2 : String :=
  "HTTP 404 for product 'A2' at https://app.rackbeat.com/api/products/A2/units?fields=unit%2Cname%2Cquantity. Response: Not found"

/-- A network on which every request fails with HTTP 500, for the all-errors
scenario. -/
def netAllFail : String → HttpResponse := fun _ => .httpError 500 "boom"

/-- A network that is never consulted, for runs with no product numbers. -/
def netUnused : String → HttpResponse := fun _ => .netError "unreachable"

/-- Looking up a key in a single-binding object. -/
theorem objGet_single (k k' : String) (v : Json) :
    objGet [(k, v)] k' = if k = k' then some v else none := rfl

/-- Definitional step of the wrapper-key loop on a non-empty key list. -/
theorem tryWrapperKeys_cons (kvs : List (String × Json)) (k : String) (keys : List String) :
    tryWrapperKeys kvs (k :: keys) =
      match objGet kvs k with
      | some (.arr v) => v.filter Json.isDict
      | _ => tryWrapperKeys kvs keys := rfl

/-- A key whose value is absent or not a list is skipped by the loop. -/
theorem tryWrapperKeys_cons_skip (kvs : List (String × Json)) (k : String) (keys : List String)
    (hk : isSomeList (objGet kvs k) = false) :
    tryWrapperKeys kvs (k :: keys) = tryWrapperKeys kvs keys := by
  rw [tryWrapperKeys_cons]
  cases hval : objGet kvs k with
  | none => rfl
  | some x =>
    cases x with
    | arr v => rw [hval] at hk; simp [isSomeList] at hk
    | null => rfl
    | bool b => rfl
    | num n => rfl
    | str s => rfl
    | obj o => rfl

/-- The wrapper-key loop on an object holding exactly `{k: L}` returns the
filtered `L` as soon as `k` occurs among the keys tried. -/
theorem tryWrapperKeys_single (L : List Json) (k : String) :
    ∀ keys : List String, k ∈ keys →
      tryWrapperKeys [(k, Json.arr L)] keys = L.filter Json.isDict := by
  intro keys hk
  induction keys with
  | nil => cases hk
  | cons k' rest ih =>
    by_cases h : k = k'
    · subst h
      rw [tryWrapperKeys_cons, objGet_single, if_pos rfl]
    · have hk' : k ∈ rest := by
        cases hk with
        | head => exact absurd rfl h
        | tail _ h2 => exact h2
      have hskip : isSomeList (objGet [(k, Json.arr L)] k') = false := by
        rw [objGet_single, if_neg h]
        rfl
      rw [tryWrapperKeys_cons_skip _ _ _ hskip, ih hk']

/-- The wrapper-key loop returns the empty list when no tried key holds a
list value. -/
theorem tryWrapperKeys_all_not_list (kvs : List (String × Json)) :
    ∀ keys : List String, keys.all (fun k => !isSomeList (objGet kvs k)) = true →
      tryWrapperKeys kvs keys = [] := by
  intro keys hall
  induction keys with
  | nil => rfl
  | cons k rest ih =>
    rw [List.all_cons, Bool.and_eq_true] at hall
    have hk : isSomeList (objGet kvs k) = false := by
      have := hall.1
      cases hv : isSomeList (objGet kvs k) with
      | false => rfl
      | true => rw [hv] at this; simp at this
    rw [tryWrapperKeys_cons_skip _ _ _ hk, ih hall.2]

/-- Keys whose values are not lists are skipped by the wrapper-key loop. -/
theorem tryWrapperKeys_append (kvs : List (String × Json)) (pre post : List String)
    (hpre : pre.all (fun k => !isSomeList (objGet kvs k)) = true) :
    tryWrapperKeys kvs (pre ++ post) = tryWrapperKeys kvs post := by
  induction pre with
  | nil => rfl
  | cons k rest ih =>
    rw [List.all_cons, Bool.and_eq_true] at hpre
    have hk : isSomeList (objGet kvs k) = false := by
      have := hpre.1
      cases hv : isSomeList (objGet kvs k) with
      | false => rfl
      | true => rw [hv] at this; simp at this
    show tryWrapperKeys kvs (k :: (rest ++ post)) = _
    rw [tryWrapperKeys_cons_skip _ _ _ hk, ih hpre.2]

/-- Every element the wrapper-key loop returns is a dict. -/
theorem tryWrapperKeys_mem_isDict (kvs : List (String × Json)) (x : Json) :
    ∀ keys : List String, x ∈ tryWrapperKeys kvs keys → x.isDict = true := by
  intro keys
  induction keys with
  | nil => intro hx; cases hx
  | cons k rest ih =>
    intro hx
    rw [tryWrapperKeys_cons] at hx
    revert hx
    cases hval : objGet kvs k with
    | none => intro hx; exact ih hx
    | some y =>
      cases y with
      | arr v => intro hx; exact List.of_mem_filter hx
      | null => intro hx; exact ih hx
      | bool b => intro hx; exact ih hx
      | num n => intro hx; exact ih hx
      | str s => intro hx; exact ih hx
      | obj o => intro hx; exact ih hx

/-- C1: for every JSON list `L`, `parse_units_payload` on the bare list and
on each wrapper object `{k: L}` for a wrapper key `k` yields the identical
extracted list (the dict elements of `L`); every value of any other shape —
a scalar, null, or an object none of whose wrapper keys holds a list —
yields the empty list.  The function is total, so no input raises an
error. -/
theorem parse_units_payload_shape (L : List Json) (k : String) (hk : k ∈ wrapperKeys)
    (j : Json) (hj : noListWrapper j = true) :
    parse_units_payload (Json.arr L) = L.filter Json.isDict ∧
    parse_units_payload (Json.obj [(k, Json.arr L)]) = parse_units_payload (Json.arr L) ∧
    parse_units_payload j = [] := by
  refine ⟨rfl, ?_, ?_⟩
  · show tryWrapperKeys [(k, Json.arr L)] wrapperKeys = L.filter Json.isDict
    exact tryWrapperKeys_single L k wrapperKeys hk
  · cases j with
    | arr elems => simp [noListWrapper] at hj
    | obj kvs => exact tryWrapperKeys_all_not_list kvs wrapperKeys hj
    | null => rfl
    | bool b => rfl
    | num n => rfl
    | str s => rfl

/-- Witness for C1 at a concrete list, wrapper key and non-matching shape. -/
theorem parse_units_payload_shape_witness :
    parse_units_payload (Json.arr [Json.obj [], Json.null]) =
      List.filter Json.isDict [Json.obj [], Json.null] ∧
    parse_units_payload (Json.obj [("data", Json.arr [Json.obj [], Json.null])]) =
      parse_units_payload (Json.arr [Json.obj [], Json.null]) ∧
    parse_units_payload (Json.obj [("data", Json.str "x")]) = [] :=
  parse_units_payload_shape [Json.obj [], Json.null] "data" (by decide)
    (Json.obj [("data", Json.str "x")]) rfl

/-- C8: every element extracted by `parse_units_payload` is a dict, and
non-dict elements of the payload list are dropped, so the extracted list can
be shorter than the payload list (here two payload elements yield one). -/
theorem parse_units_payload_mem_isDict (j x : Json) (hx : x ∈ parse_units_payload j) :
    x.isDict = true ∧
    parse_units_payload (Json.arr [Json.str "pcs", Json.obj []]) = [Json.obj []] := by
  refine ⟨?_, rfl⟩
  cases j with
  | arr elems => exact List.of_mem_filter hx
  | obj kvs => exact tryWrapperKeys_mem_isDict kvs x wrapperKeys hx
  | null => cases hx
  | bool b => cases hx
  | num n => cases hx
  | str s => cases hx

/-- Witness for C8 at a concrete payload and element. -/
theorem parse_units_payload_mem_isDict_witness :
    (Json.obj []).isDict = true ∧
    parse_units_payload (Json.arr [Json.str "pcs", Json.obj []]) = [Json.obj []] :=
  parse_units_payload_mem_isDict (Json.arr [Json.obj []]) (Json.obj []) (by
    show Json.obj [] ∈ parse_units_payload (Json.arr [Json.obj []])
    exact List.mem_singleton.mpr rfl)

/-- C9: when the wrapper keys split as `pre ++ k :: post` with every key of
`pre` absent or bound to a non-list value, and `k` is bound to a list `v`,
`parse_units_payload` returns the dict elements of `v`: the first key in the
fixed order whose value is a list wins, and keys with non-list values are
skipped. -/
theorem parse_units_payload_first_list_key (kvs : List (String × Json))
    (pre post : List String) (k : String) (v : List Json)
    (hsplit : wrapperKeys = pre ++ k :: post)
    (hpre : pre.all (fun k' => !isSomeList (objGet kvs k')) = true)
    (hk : objGet kvs k = some (Json.arr v)) :
    parse_units_payload (Json.obj kvs) = v.filter Json.isDict := by
  show tryWrapperKeys kvs wrapperKeys = v.filter Json.isDict
  rw [hsplit, tryWrapperKeys_append kvs pre (k :: post) hpre]
  unfold tryWrapperKeys
  rw [hk]

/-- Witness for C9: `data` is present with a non-list value and is skipped;
`units` holds the list that is returned. -/
theorem parse_units_payload_first_list_key_witness :
    parse_units_payload
        (Json.obj [("data", Json.str "x"), ("units", Json.arr [Json.obj [], Json.null])]) =
      List.filter Json.isDict [Json.obj [], Json.null] :=
  parse_units_payload_first_list_key
    [("data", Json.str "x"), ("units", Json.arr [Json.obj [], Json.null])]
    ["item_units", "data"] ["results", "items"] "units" [Json.obj [], Json.null]
    rfl rfl rfl

/-- The last-match fold of `dictZipGet` returns `none` when every zipped
value is `none`. -/
theorem foldl_zip_replicate_none (field : String) :
    ∀ (fns : List String) (m : Nat),
      ((fns.zip (List.replicate m (none : Option String))).foldl
        (fun acc kv => if kv.1 = field then kv.2 else acc) none) = none := by
  intro fns
  induction fns with
  | nil => intro m; rfl
  | cons f fs ih =>
    intro m
    cases m with
    | zero => rfl
    | succ m' =>
      simp only [List.replicate_succ, List.zip_cons_cons, List.foldl_cons, ite_self]
      exact ih m'

/-- A blank row (`row == []`, skipped by `csv.DictReader`) has no value in
any column. -/
theorem dictZipGet_nil (fieldnames : List String) (field : String) :
    dictZipGet fieldnames [] field = none := by
  unfold dictZipGet
  simp only [List.map_nil, List.nil_append]
  exact foldl_zip_replicate_none field fieldnames fieldnames.length

/-- Rows that a function maps to `none` can be dropped before `filterMap`. -/
theorem filterMap_filter_of_nil_none {β : Type} (g : List String → Option β)
    (hg : g [] = none) :
    ∀ l : List (List String), (l.filter (fun r => r ≠ [])).filterMap g = l.filterMap g := by
  intro l
  induction l with
  | nil => rfl
  | cons r t ih =>
    by_cases h : r = []
    · subst h
      have hfil : (([] : List String) :: t).filter (fun r => r ≠ []) =
          t.filter (fun r => r ≠ []) := by simp
      rw [hfil, ih, List.filterMap_cons, hg]
    · have hfil : (r :: t).filter (fun r => r ≠ []) =
          r :: t.filter (fun r => r ≠ []) := by simp [h]
      rw [hfil]
      simp only [List.filterMap_cons]
      rw [ih]

/-- The value-collection loop computes exactly the column values described
by the spec: blank rows are skipped by `csv.DictReader`, but their column
value would be empty and dropped anyway. -/
theorem columnValues_eq_spec (delim : Char) (fieldnames : List String)
    (field : String) (rest : List String) :
    columnValues delim fieldnames field rest =
      columnValuesSpec delim field fieldnames rest := by
  have hg : (fun row =>
        if pyStrip ((dictZipGet fieldnames row field).getD "") = ""
        then none
        else some (pyStrip ((dictZipGet fieldnames row field).getD "")))
      ([] : List String) = (none : Option String) := by
    simp only [dictZipGet_nil, Option.getD_none]
    rw [show pyStrip "" = "" from rfl]
    simp
  simp only [columnValues, columnValuesSpec]
  rw [filterMap_filter_of_nil_none _ hg, List.filterMap_map]
  rfl

/-- C3 (amended): for every input CSV whose header row yields a recognizable
product-number column whose chosen name is non-empty (an empty name makes
the program raise `ValueError` instead), provided that column holds at
least one non-empty whitespace-trimmed value, the reader returns exactly
the non-empty trimmed values of that column, in row order.  (When every
value of the column is empty, the bare-line fallback applies instead — see
the counterexample.) -/
theorem read_product_numbers_structured (delim : Char) (header : String)
    (rest : List String) (field : String)
    (hf : get_product_number_field (csvSplit delim header) = some field)
    (hfe : field ≠ "")
    (hne : columnValuesSpec delim field (csvSplit delim header) rest ≠ []) :
    read_product_numbers delim (header :: rest) =
      .ok (columnValuesSpec delim field (csvSplit delim header) rest) := by
  have h := columnValues_eq_spec delim (csvSplit delim header) field rest
  simp only [read_product_numbers, hf, h]
  rw [if_neg hfe, if_neg hne]

/-- Witness for the amended C3 at a concrete file with a `sku` header. -/
theorem read_product_numbers_structured_witness :
    get_product_number_field (csvSplit ';' "sku;qty") = some "sku" ∧
    read_product_numbers ';' ["sku;qty", " P-1 ;4", "", "P-2;5"] =
      .ok (columnValuesSpec ';' "sku" (csvSplit ';' "sku;qty") [" P-1 ;4", "", "P-2;5"]) :=
  ⟨by decide,
    read_product_numbers_structured ';' "sku;qty" [" P-1 ;4", "", "P-2;5"] "sku"
      (by decide) (by decide) (by decide)⟩

/-- Counterexample to C3 as stated: the header names a recognizable
product-number column, but every value in that column is empty, so the
structured parse yields nothing and the bare-line fallback returns `["a"]` —
not the (empty) list of non-empty trimmed column values. -/
theorem read_product_numbers_structured_cex :
    get_product_number_field (csvSplit ';' "product_number;x") = some "product_number" ∧
    columnValuesSpec ';' "product_number" (csvSplit ';' "product_number;x") [";a"] = [] ∧
    read_product_numbers ';' ["product_number;x", ";a"] = .ok ["a"] := by
  refine ⟨by decide, by decide, rfl⟩

/-- C4: whenever the source reaches the bare-line fallback — no usable
header, or a column with a non-empty name whose values are all empty (an
empty name raises `ValueError` before the fallback) — the reader returns,
in file order, each line's value after whitespace trimming and stripping of
leading/trailing delimiter characters (`;` and `,`), kept when non-empty
and not header-looking (case-insensitive "product" start). -/
theorem read_product_numbers_fallback (delim : Char) (lines : List String)
    (h : structuredYieldsNothing delim lines = true) :
    read_product_numbers delim lines = .ok (bareLineSpec lines) := by
  cases lines with
  | nil => rfl
  | cons header rest =>
    simp only [structuredYieldsNothing] at h
    cases hf : get_product_number_field (csvSplit delim header) with
    | none =>
      simp only [read_product_numbers, hf]
      rfl
    | some field =>
      simp only [hf] at h
      rw [Bool.and_eq_true] at h
      have hfe : field ≠ "" := of_decide_eq_true h.1
      have hcv : columnValues delim (csvSplit delim header) field rest = [] :=
        of_decide_eq_true h.2
      simp only [read_product_numbers, hf]
      rw [if_neg hfe, if_pos hcv]
      rfl

/-- Witness for C4 at a file whose recognized column is entirely empty. -/
theorem read_product_numbers_fallback_witness :
    structuredYieldsNothing ';' ["product_number;x", ";a", ";b"] = true ∧
    read_product_numbers ';' ["product_number;x", ";a", ";b"] =
      .ok (bareLineSpec ["product_number;x", ";a", ";b"]) :=
  ⟨by decide, read_product_numbers_fallback ';' ["product_number;x", ";a", ";b"] (by decide)⟩

/-- C5: when the reader returns zero product numbers (without raising), the
driver writes no output file, prints the diagnostic to stderr, and exits
with code 1. -/
theorem main_run_no_products (network : String → HttpResponse) (delim : Char)
    (lines : List String) (h : read_product_numbers delim lines = .ok []) :
    main_run network delim lines =
      { outputFile := none, errors := [],
        diagnostics := ["No product numbers found in input CSV."], exitCode := 1 } := by
  simp [main_run, h]

/-- Witness for C5 on an empty input file. -/
theorem main_run_no_products_witness :
    read_product_numbers ';' ([] : List String) = .ok [] ∧
    main_run netUnused ';' [] =
      { outputFile := none, errors := [],
        diagnostics := ["No product numbers found in input CSV."], exitCode := 1 } :=
  ⟨rfl, main_run_no_products netUnused ';' [] rfl⟩

/-- C6: a relative `--output` resolves against the input file's parent
directory, an absolute one is used as given, and an absent one defaults to
`product_units.csv` next to the input. -/
theorem resolve_output_path_cases (input_path candidate : PyPath) :
    (candidate.absolute = false →
      resolve_output_path input_path (some candidate) = input_path.parent.join candidate) ∧
    (candidate.absolute = true →
      resolve_output_path input_path (some candidate) = candidate) ∧
    resolve_output_path input_path none =
      input_path.parent.join ⟨false, ["product_units.csv"]⟩ := by
  refine ⟨fun h => ?_, fun h => ?_, rfl⟩ <;> simp [resolve_output_path, h]

/-- Witness for C6 at concrete relative and absolute output paths. -/
theorem resolve_output_path_cases_witness :
    resolve_output_path ⟨false, ["data", "in.csv"]⟩ (some ⟨false, ["out.csv"]⟩) =
      PyPath.join (PyPath.parent ⟨false, ["data", "in.csv"]⟩) ⟨false, ["out.csv"]⟩ ∧
    resolve_output_path ⟨false, ["data", "in.csv"]⟩ (some ⟨true, ["tmp", "o.csv"]⟩) =
      ⟨true, ["tmp", "o.csv"]⟩ :=
  ⟨(resolve_output_path_cases ⟨false, ["data", "in.csv"]⟩ ⟨false, ["out.csv"]⟩).1 rfl,
    (resolve_output_path_cases ⟨false, ["data", "in.csv"]⟩ ⟨true, ["tmp", "o.csv"]⟩).2.1 rfl⟩

/-- C7: the written CSV always starts with the fixed header
`product_number;unit;unitname;quantity` and serialises every row's four
fields in that order with `;` as delimiter; a unit record missing `unit`,
`name` or `quantity` serialises the corresponding field as the empty
string. -/
theorem write_output_csv_format (rows : List OutputRow) (pn : String)
    (kvs : List (String × Json)) :
    write_output_csv rows =
      "product_number;unit;unitname;quantity" :: rows.map rowLine ∧
    (objGet kvs "unit" = none → pyStr (rowOf pn (Json.obj kvs)).unit = "") ∧
    (objGet kvs "name" = none → pyStr (rowOf pn (Json.obj kvs)).unitname = "") ∧
    (objGet kvs "quantity" = none → pyStr (rowOf pn (Json.obj kvs)).quantity = "") := by
  refine ⟨rfl, fun h => ?_, fun h => ?_, fun h => ?_⟩ <;>
    simp [rowOf, jsonGetD, h, pyStr]

/-- Witness for C7: a record with none of the three keys serialises all
three fields empty. -/
theorem write_output_csv_format_witness :
    pyStr (rowOf "P" (Json.obj [("foo", Json.num 7)])).unit = "" ∧
    pyStr (rowOf "P" (Json.obj [("foo", Json.num 7)])).unitname = "" ∧
    pyStr (rowOf "P" (Json.obj [("foo", Json.num 7)])).quantity = "" :=
  ⟨(write_output_csv_format [] "P" [("foo", Json.num 7)]).2.1 rfl,
    (write_output_csv_format [] "P" [("foo", Json.num 7)]).2.2.1 rfl,
    (write_output_csv_format [] "P" [("foo", Json.num 7)]).2.2.2 rfl⟩

/-- Unfolding of `main`'s per-product loop: the final accumulators are the
concatenated per-product rows and the collected per-product errors, in input
order; a failing product contributes no rows but does not stop the loop. -/
theorem foldl_stepProduct (network : String → HttpResponse) :
    ∀ (pns : List String) (rows : List OutputRow) (errs : List String),
      pns.foldl (stepProduct network) (rows, errs) =
        (rows ++ pns.flatMap (rowsOf network), errs ++ pns.filterMap (errOf network)) := by
  intro pns
  induction pns with
  | nil => intro rows errs; simp
  | cons pn t ih =>
    intro rows errs
    rw [List.foldl_cons]
    cases hfetch : fetch_units_for_product pn (network pn) with
    | ok units =>
      have h1 : stepProduct network (rows, errs) pn = (rows ++ to_output_rows pn units, errs) := by
        unfold stepProduct; rw [hfetch]
      have h2 : rowsOf network pn = to_output_rows pn units := by
        unfold rowsOf; rw [hfetch]
      have h3 : errOf network pn = none := by
        unfold errOf; rw [hfetch]
      rw [h1, ih, List.flatMap_cons, List.filterMap_cons, h2, h3, List.append_assoc]
    | error e =>
      have h1 : stepProduct network (rows, errs) pn = (rows, errs ++ [e]) := by
        unfold stepProduct; rw [hfetch]
      have h2 : rowsOf network pn = [] := by
        unfold rowsOf; rw [hfetch]
      have h3 : errOf network pn = some e := by
        unfold errOf; rw [hfetch]
      rw [h1, ih, List.flatMap_cons, List.filterMap_cons, h2, h3, List.nil_append,
        List.append_assoc]
      simp

/-- Closed form of the per-product loop from empty accumulators. -/
theorem processProducts_eq (network : String → HttpResponse) (pns : List String) :
    processProducts network pns = (pns.flatMap (rowsOf network), pns.filterMap (errOf network)) := by
  unfold processProducts
  rw [foldl_stepProduct]
  simp

/-- Characterisation of `main_run` when the reader yields a non-empty
product list: the file is always written from the concatenated rows, and
the exit code is 0 or 2 according to whether any per-product error was
collected. -/
theorem main_run_eq (network : String → HttpResponse) (delim : Char) (lines : List String)
    (pns : List String)
    (hread : read_product_numbers delim lines = .ok pns)
    (h1 : pns ≠ []) :
    main_run network delim lines =
      (if pns.filterMap (errOf network) = [] then
        { outputFile := some (write_output_csv (pns.flatMap (rowsOf network))),
          errors := [], diagnostics := [], exitCode := 0 }
      else
        { outputFile := some (write_output_csv (pns.flatMap (rowsOf network))),
          errors := pns.filterMap (errOf network),
          diagnostics := ("Errors: " ++ toString (pns.filterMap (errOf network)).length)
            :: (pns.filterMap (errOf network)).map (fun e => "- " ++ e),
          exitCode := 2 }) := by
  simp only [main_run, hread, if_neg h1, processProducts_eq]

/-- C10: on a run where the reader yields at least one product number, the
output file is always written — even when no product contributes any row
(every fetch failed, or every product had zero unit records); it then holds
only the header line, and the exit code is 0 when no fetch failed and 2
when at least one did. -/
theorem main_run_writes_header_only (network : String → HttpResponse) (delim : Char)
    (lines : List String) (pns : List String)
    (hread : read_product_numbers delim lines = .ok pns)
    (h1 : pns ≠ [])
    (h2 : ∀ pn ∈ pns, rowsOf network pn = []) :
    (main_run network delim lines).outputFile = some [headerLine] ∧
    ((∀ pn ∈ pns, errOf network pn = none) →
      (main_run network delim lines).exitCode = 0) ∧
    ((∃ pn ∈ pns, errOf network pn ≠ none) →
      (main_run network delim lines).exitCode = 2) := by
  have hbind : pns.flatMap (rowsOf network) = [] :=
    List.flatMap_eq_nil_iff.mpr h2
  rw [main_run_eq network delim lines pns hread h1, hbind]
  refine ⟨?_, ?_, ?_⟩
  · by_cases he : pns.filterMap (errOf network) = []
    · rw [if_pos he]
      rfl
    · rw [if_neg he]
      rfl
  · intro hall
    rw [if_pos (List.filterMap_eq_nil_iff.mpr hall)]
  · intro hex
    obtain ⟨pn, hpn, hne⟩ := hex
    have he : ¬(pns.filterMap (errOf network) = []) :=
      fun hnil => hne (List.filterMap_eq_nil_iff.mp hnil pn hpn)
    rw [if_neg he]

/-- Witness for C10: one product number, its only fetch failing with
HTTP 500; the file is header-only and the exit code is 2. -/
theorem main_run_writes_header_only_witness :
    (main_run netAllFail ';' ["A1"]).outputFile = some [headerLine] ∧
    (main_run netAllFail ';' ["A1"]).exitCode = 2 := by
  have h := main_run_writes_header_only netAllFail ';' ["A1"] ["A1"] rfl (by decide)
    (by
      intro pn hpn
      rw [List.mem_singleton] at hpn
      subst hpn
      rfl)
  refine ⟨h.1, h.2.2 ⟨"A1", ?_, ?_⟩⟩
  · exact List.mem_singleton.mpr rfl
  · decide

/-- C2: for the input product numbers `["A1", "A2"]` where A1's call returns
two unit records and A2's call fails with HTTP 404, the output CSV holds
exactly two data rows (both for A1), exactly one error naming A2 is
collected and echoed to stderr, and the exit code is 2: A2's failure does
not prevent A1's rows from being written. -/
theorem main_run_partial_failure :
    main_run netC2 ';' ["product_number", "A1", "A2"] =
      { outputFile := some ["product_number;unit;unitname;quantity",
                            "A1;pcs;Pieces;1", "A1;box;Box;10"],
        errors := [errA2],
        diagnostics := ["Errors: 1", "- " ++ errA2],
        exitCode := 2 } := rfl
